import Mathlib

/-!
Verification of the missing-token reconciliation-and-enrichment pipeline
(`src/missing_tokens.py`): a shallow embedding of its data model and of the
entry point `run_missing_tokens`, with theorems settling the specification's
claims about deduplication, partial-failure tolerance, projection order and
the two output formats.

External collaborators (the Dune query client, the web3 RPC transport, the
file system) are modelled as oracles / result records, exactly as the spec
delimits them; a raised Python exception is `none` (caught, per-address) or
`Except.error` (uncaught, aborting the run).
-/

/-- A token address in its normalized form. `duneapi.types.Address` compares
and hashes addresses on a normalized (checksummed) representation of the hex
string, so the same logical address arriving in different case is one value;
the model takes that normalized string itself as the address value, making
`Addr` equality the source's address equality. -/
abbrev Addr := String

/-- Modelled from the spec: the `Network` enum lives in `src/utils.py`, which
is not among the repository files under `src/`. The spec names two supported
networks (mainnet, gnosis: the keys of the query-id table in
`fetch_missing_tokens_legacy` and the two branches of `as_v1_string`) and an
error taxonomy entry (`UnsupportedNetworkError`) for a network value outside
the supported set, so the model keeps a constructor for such values. -/
inductive Network where
  | MAINNET : Network
  | GNOSIS : Network
  | UNSUPPORTED : String → Network
  deriving DecidableEq

/-- Printable name of a network, standing in for Python's string rendering of
the enum member in the message of `raise ValueError(...)`. -/
def Network.networkName : Network → String
  | .MAINNET => "mainnet"
  | .GNOSIS => "gnosis"
  | .UNSUPPORTED s => s

/-- The supported set of `TokenDetails.as_v1_string`: the two networks with a
rendering branch (line 44 and line 48 of the source). -/
def Network.supported (chain : Network) : Prop :=
  chain = Network.MAINNET ∨ chain = Network.GNOSIS

/-- EVM token details, the fields `TokenDetails.__init__` stores: checksummed
address, symbol and decimals (a `uint8`-ranged integer, modelled as `Nat`). -/
structure TokenDetails where
  address : String
  symbol : String
  decimals : Nat
  deriving DecidableEq

/-- Model of Python's `str.lower`: lower-case every character of the string.
Defined by a structural map over the character list so that concrete
instances evaluate inside the kernel. -/
def pyLower (s : String) : String := String.mk (s.data.map Char.toLower)

/-- Model of the external `Web3.toChecksumAddress` (EIP-55): it maps an
address string to a canonical form depending only on its case-insensitive
content, so two addresses checksum equal exactly when they are equal up to
case. The model canonicalizes by lower-casing, which has the same equality
kernel; no claim depends on the concrete spelling of the canonical form. -/
def toChecksumAddress (s : String) : String := pyLower s

/-- The native-asset sentinel address literal of `TokenDetails.__init__`
(line 27 of the source). -/
def NATIVE_TOKEN : String := "0xEeeeeEeeeEeEeeEeEeEeeEEEeeeeEeeeeeeeEEeE"

/-- `TokenDetails.__init__` (lines 24-34): checksum the address; the
native-asset sentinel gets the fixed record (symbol `ETH`, decimals 18) with
no contract call; every other address costs two contract reads (`symbol()`
then `decimals()`), each modelled as an oracle that may fail. The second
component counts the contract calls performed; a failing read raises, so the
whole resolution fails (`none`) and, when `symbol()` already raised, the
`decimals()` read is never reached. -/
def TokenDetails.init (symbolOf : String → Option String)
    (decimalsOf : String → Option Nat) (address : Addr) :
    Option TokenDetails × Nat :=
  let ca := toChecksumAddress address
  if ca = toChecksumAddress NATIVE_TOKEN then
    (some { address := ca, symbol := "ETH", decimals := 18 }, 0)
  else
    match symbolOf ca with
    | none => (none, 1)
    | some s =>
      match decimalsOf ca with
      | none => (none, 2)
      | some d => (some { address := ca, symbol := s, decimals := d }, 2)

/-- `TokenDetails.as_v1_string` (lines 36-52): Dune V1 representation.
Mainnet renders the address as an escaped bytea literal: the f-string
`f"\\\\x{address[2:]}"` evaluates to two backslash characters, `x`, and the
hex digits without the `0x` prefix, followed by tab, symbol, tab, decimals.
Gnosis renders a `decode(..., 'hex')` tuple line. Any other network raises
`ValueError` (the spec's `UnsupportedNetworkError`), modelled as
`Except.error`. -/
def TokenDetails.as_v1_string (self : TokenDetails) (chain : Network) :
    Except String String :=
  let symbol := self.symbol
  let decimals := self.decimals
  let address := self.address
  if chain = Network.MAINNET then
    let address_bytea := "\\\\x" ++ address.drop 2
    Except.ok (address_bytea ++ "\t" ++ symbol ++ "\t" ++ toString decimals)
  else if chain = Network.GNOSIS then
    Except.ok ("('" ++ symbol ++ "', " ++ toString decimals ++ ", decode('" ++
      address.drop 2 ++ "', 'hex')),")
  else
    Except.error ("Incompatible Network " ++ chain.networkName)

/-- `TokenDetails.as_v2_string` (lines 54-61): Dune V2 representation,
network-independent, with the stored (checksummed) address lower-cased. -/
def TokenDetails.as_v2_string (self : TokenDetails) : String :=
  "('" ++ pyLower self.address ++ "', '" ++ self.symbol ++ "', " ++
    toString self.decimals ++ "),"

/-- `MissingTokenResults` (lines 64-72): the list of missing tokens per Dune
engine version. -/
structure MissingTokenResults where
  v1 : List Addr
  v2 : List Addr

/-- `MissingTokenResults.is_empty` (lines 74-76): true iff both lists are
empty. -/
def MissingTokenResults.is_empty (self : MissingTokenResults) : Bool :=
  self.v1.isEmpty && self.v2.isEmpty

/-- `MissingTokenResults.get_all_tokens` (lines 78-80): `set(self.v1 +
self.v2)`, the set of distinct tokens from both lists (their union). -/
def MissingTokenResults.get_all_tokens (self : MissingTokenResults) :
    Finset Addr :=
  (self.v1 ++ self.v2).toFinset

/-- The resolution loop of `run_missing_tokens` iterates over the Python set
`get_all_tokens()`; a set yields each element exactly once, in an unspecified
order. `(v1 ++ v2).dedup` is one such enumeration (its `toFinset` is
`get_all_tokens`, see `workList_toFinset`), and every property proved below
about the loop is a property of the per-address outcomes, independent of the
enumeration order. -/
def MissingTokenResults.workList (self : MissingTokenResults) : List Addr :=
  (self.v1 ++ self.v2).dedup

/-- One iteration of the resolution loop (lines 132-138): construct
`TokenDetails` for the token (one resolver invocation, counted in the third
component); on success store the record under the token's key in
`token_details`, on exception append the token to `skipped` and continue. -/
def resolveStep (resolve : Addr → Option TokenDetails)
    (acc : List (Addr × TokenDetails) × List Addr × Nat) (token : Addr) :
    List (Addr × TokenDetails) × List Addr × Nat :=
  match resolve token with
  | some details => (acc.1 ++ [(token, details)], acc.2.1, acc.2.2 + 1)
  | none => (acc.1, acc.2.1 ++ [token], acc.2.2 + 1)

/-- The whole resolution loop (lines 130-138), returning the `token_details`
mapping (an association list keyed by address), the `skipped` list, and the
number of resolver invocations made. -/
def resolutionLoop (resolve : Addr → Option TokenDetails)
    (tokens : List Addr) : List (Addr × TokenDetails) × List Addr × Nat :=
  tokens.foldl (resolveStep resolve) ([], [], 0)

/-- Body of the projection list comprehensions (lines 141-142), evaluated
left to right; the first raised exception aborts the comprehension. -/
def comprehension (f : Addr → Except String String) :
    List Addr → Except String (List String)
  | [] => Except.ok []
  | t :: ts =>
    match f t with
    | Except.error e => Except.error e
    | Except.ok s =>
      match comprehension f ts with
      | Except.error e => Except.error e
      | Except.ok rest => Except.ok (s :: rest)

/-- `token_details[t]`: Python dict lookup, raising `KeyError` when the key
is absent. -/
def dictLookup (td : List (Addr × TokenDetails)) (t : Addr) :
    Except String TokenDetails :=
  match td.lookup t with
  | some d => Except.ok d
  | none => Except.error ("KeyError " ++ t)

/-- Line 141: `res_v1 = [token_details[t].as_v1_string(chain) for t in
missing_tokens.v1 if t not in skipped]`. -/
def resV1 (chain : Network) (td : List (Addr × TokenDetails))
    (skipped : List Addr) (v1 : List Addr) : Except String (List String) :=
  comprehension
    (fun t =>
      match dictLookup td t with
      | Except.error e => Except.error e
      | Except.ok d => d.as_v1_string chain)
    (v1.filter fun t => ! skipped.contains t)

/-- Line 142: `res_v2 = [token_details[t].as_v2_string() for t in
missing_tokens.v2 if t not in skipped]`. -/
def resV2 (td : List (Addr × TokenDetails)) (skipped : List Addr)
    (v2 : List Addr) : Except String (List String) :=
  comprehension
    (fun t =>
      match dictLookup td t with
      | Except.error e => Except.error e
      | Except.ok d => Except.ok d.as_v2_string)
    (v2.filter fun t => ! skipped.contains t)

/-- Observable outcome of a completed run: how many times the resolver
(`TokenDetails.__init__`) was invoked, the skip list, the files written by
`write_results` as (filename, lines) pairs in write order, and whether the
run took the `No missing tokens detected` branch. -/
structure RunResult where
  resolverCalls : Nat
  skipped : List Addr
  filesWritten : List (String × List String)
  noMissingTokens : Bool
  deriving DecidableEq

/-- Lines 125-146 of `run_missing_tokens`: the pipeline body on an
already-built batch. The resolver `fun token => TokenDetails(address=token,
w3=w3)` is abstracted as an oracle whose `none` models the exception caught
at line 136 (the catch-all records the token in `skipped` and continues); an
exception raised outside that `try` (a `KeyError` from `token_details[t]`, a
`ValueError` from `as_v1_string`) is uncaught and aborts the run
(`Except.error`). -/
def runBatch (resolve : Addr → Option TokenDetails) (chain : Network)
    (missing : MissingTokenResults) : Except String RunResult :=
  if ¬ missing.is_empty then
    let out := resolutionLoop resolve missing.workList
    let token_details := out.1
    let skipped := out.2.1
    let calls := out.2.2
    match resV1 chain token_details skipped missing.v1 with
    | Except.error e => Except.error e
    | Except.ok res_v1 =>
      match resV2 token_details skipped missing.v2 with
      | Except.error e => Except.error e
      | Except.ok res_v2 =>
        Except.ok
          { resolverCalls := calls
            skipped := skipped
            filesWritten := [("missing-tokens-v1.txt", res_v1),
              ("missing-tokens-v2.txt", res_v2)]
            noMissingTokens := false }
  else
    Except.ok
      { resolverCalls := 0, skipped := [], filesWritten := [],
        noMissingTokens := true }

set_option linter.unusedVariables false in
/-- `run_missing_tokens` (lines 117-146): the entry point builds the batch
with `v1=[]` (line 121, no query issued) and `v2=fetch_missing_tokens(...)`
(line 122), then runs the body modelled by `runBatch`. The two Dune source
queries (`fetch_missing_tokens_legacy` for V1, `fetch_missing_tokens` for V2)
are abstracted as oracles from the network to the returned address list; the
legacy V1 oracle is a parameter so that theorems can speak about whether the
run consults it. -/
def run_missing_tokens (fetchLegacy fetchV2 : Network → List Addr)
    (resolve : Addr → Option TokenDetails) (chain : Network) :
    Except String RunResult :=
  let missing : MissingTokenResults := { v1 := [], v2 := fetchV2 chain }
  runBatch resolve chain missing

/-- The loop's enumeration covers exactly the Python set `get_all_tokens`. -/
theorem workList_toFinset (r : MissingTokenResults) :
    r.workList.toFinset = r.get_all_tokens := by
  apply Finset.ext
  intro a
  simp [MissingTokenResults.workList, MissingTokenResults.get_all_tokens]

/-- Closed form of the resolution loop run from an arbitrary accumulator:
successes are appended to `token_details` in iteration order, failures to
`skipped`, and the call counter advances once per iterated token. -/
theorem resolutionLoop_go (resolve : Addr → Option TokenDetails)
    (ws : List Addr) (td0 : List (Addr × TokenDetails)) (sk0 : List Addr)
    (n0 : Nat) :
    ws.foldl (resolveStep resolve) (td0, sk0, n0) =
      (td0 ++ ws.filterMap (fun t => (resolve t).map fun d => (t, d)),
       sk0 ++ ws.filter (fun t => (resolve t).isNone),
       n0 + ws.length) := by
  induction ws generalizing td0 sk0 n0 with
  | nil => simp
  | cons t ts ih =>
    simp only [List.foldl_cons, resolveStep, List.filterMap_cons,
      List.filter_cons, List.length_cons]
    cases h : resolve t with
    | some d =>
      simp [h, ih, List.append_assoc, Nat.add_comm, Nat.add_assoc,
        Nat.add_left_comm]
    | none =>
      simp [h, ih, List.append_assoc, Nat.add_comm, Nat.add_assoc,
        Nat.add_left_comm]

/-- Closed form of the resolution loop from the empty initial state. -/
theorem resolutionLoop_eq (resolve : Addr → Option TokenDetails)
    (ws : List Addr) :
    resolutionLoop resolve ws =
      (ws.filterMap (fun t => (resolve t).map fun d => (t, d)),
       ws.filter (fun t => (resolve t).isNone),
       ws.length) := by
  unfold resolutionLoop
  rw [resolutionLoop_go]
  simp

/-- Looking a token up in the `token_details` mapping built by the loop gives
exactly the resolver's verdict for tokens of the work list, and nothing for
tokens outside it. -/
theorem lookup_resolved (resolve : Addr → Option TokenDetails)
    (ws : List Addr) (t : Addr) :
    (ws.filterMap fun u => (resolve u).map fun d => (u, d)).lookup t =
      if t ∈ ws then resolve t else none := by
  induction ws with
  | nil => simp
  | cons u us ih =>
    by_cases htu : t = u
    · subst htu
      cases h : resolve t with
      | some d => simp [List.filterMap_cons, h, List.lookup]
      | none => simp [List.filterMap_cons, h, ih]
    · cases h : resolve u with
      | some d =>
        have hbeq : (t == u) = false := by simp [htu]
        simp [List.filterMap_cons, h, ih, List.lookup, hbeq,
          List.mem_cons, htu]
      | none =>
        simp [List.filterMap_cons, h, ih, List.mem_cons, htu]

/-- Membership in the `skipped` list built by the loop: exactly the work-list
tokens whose resolution raised. -/
theorem mem_skipped (resolve : Addr → Option TokenDetails) (ws : List Addr)
    (t : Addr) :
    t ∈ ws.filter (fun u => (resolve u).isNone) ↔
      t ∈ ws ∧ resolve t = none := by
  simp [List.mem_filter, Option.isNone_iff_eq_none]

/-- A list comprehension over a filtered list, when every retained element
evaluates without raising: it returns the `filterMap` of the underlying list,
provided the filter and the per-element results agree pointwise. -/
theorem comprehension_filter_ok (p : Addr → Bool)
    (f : Addr → Except String String) (F : Addr → Option String)
    (l : List Addr)
    (h : ∀ t ∈ l, (p t = false → F t = none) ∧
      (p t = true → ∃ s, f t = Except.ok s ∧ F t = some s)) :
    comprehension f (l.filter p) = Except.ok (l.filterMap F) := by
  induction l with
  | nil => rfl
  | cons t ts ih =>
    have ht := h t (List.mem_cons_self t ts)
    have hts := ih fun u hu => h u (List.mem_cons_of_mem t hu)
    cases hp : p t with
    | false =>
      rw [List.filter_cons_of_neg (by simp [hp]), List.filterMap_cons,
        ht.1 hp, hts]
    | true =>
      obtain ⟨s, hfs, hFs⟩ := ht.2 hp
      rw [List.filter_cons_of_pos (by simp [hp]), List.filterMap_cons, hFs]
      simp [comprehension, hfs, hts]

/-- On a supported network `as_v1_string` returns a line (never raises), and
its `toOption` view carries that line. -/
theorem as_v1_string_ok_of_supported (d : TokenDetails) (chain : Network)
    (h : chain.supported) :
    ∃ s, d.as_v1_string chain = Except.ok s ∧
      (d.as_v1_string chain).toOption = some s := by
  rcases h with h | h <;> subst h <;> exact ⟨_, rfl, rfl⟩

/-- The V1 projection (line 141) over the loop's outcome never raises on a
supported network when every projected token lies in the work list: it
returns, in source order, one line per token whose resolution succeeded. -/
theorem resV1_ok (resolve : Addr → Option TokenDetails) (chain : Network)
    (hchain : chain.supported) (ws v : List Addr)
    (hv : ∀ t ∈ v, t ∈ ws) :
    resV1 chain (ws.filterMap fun u => (resolve u).map fun d => (u, d))
        (ws.filter fun u => (resolve u).isNone) v =
      Except.ok (v.filterMap fun t =>
        (resolve t).bind fun d => (d.as_v1_string chain).toOption) := by
  unfold resV1
  apply comprehension_filter_ok
  intro t htv
  have htw := hv t htv
  constructor
  · intro hp
    have hmem : t ∈ ws.filter (fun u => (resolve u).isNone) := by
      simpa using hp
    have hnone : resolve t = none := ((mem_skipped resolve ws t).1 hmem).2
    simp [hnone]
  · intro hp
    have hns : t ∉ ws ∨ ¬ resolve t = none := by
      simpa using hp
    have hnone : ¬ resolve t = none := by
      rcases hns with h | h
      · exact absurd htw h
      · exact h
    obtain ⟨d, hd⟩ := Option.ne_none_iff_exists'.1 hnone
    obtain ⟨s, hs, hso⟩ := as_v1_string_ok_of_supported d chain hchain
    refine ⟨s, ?_, ?_⟩
    · simp [dictLookup, lookup_resolved, htw, hd, hs]
    · simp [hd, hso]

/-- The V2 projection (line 142) over the loop's outcome never raises when
every projected token lies in the work list: it returns, in source order, one
line per token whose resolution succeeded. -/
theorem resV2_ok (resolve : Addr → Option TokenDetails) (ws v : List Addr)
    (hv : ∀ t ∈ v, t ∈ ws) :
    resV2 (ws.filterMap fun u => (resolve u).map fun d => (u, d))
        (ws.filter fun u => (resolve u).isNone) v =
      Except.ok (v.filterMap fun t =>
        (resolve t).map TokenDetails.as_v2_string) := by
  unfold resV2
  apply comprehension_filter_ok
  intro t htv
  have htw := hv t htv
  constructor
  · intro hp
    have hmem : t ∈ ws.filter (fun u => (resolve u).isNone) := by
      simpa using hp
    have hnone : resolve t = none := ((mem_skipped resolve ws t).1 hmem).2
    simp [hnone]
  · intro hp
    have hns : t ∉ ws ∨ ¬ resolve t = none := by
      simpa using hp
    have hnone : ¬ resolve t = none := by
      rcases hns with h | h
      · exact absurd htw h
      · exact h
    obtain ⟨d, hd⟩ := Option.ne_none_iff_exists'.1 hnone
    refine ⟨d.as_v2_string, ?_, ?_⟩
    · simp [dictLookup, lookup_resolved, htw, hd]
    · simp [hd]

/-- Every token of either source list lies in the loop's work list. -/
theorem mem_workList_of_mem (v1 v2 : List Addr) (t : Addr)
    (h : t ∈ v1 ∨ t ∈ v2) :
    t ∈ (MissingTokenResults.mk v1 v2).workList := by
  simp only [MissingTokenResults.workList, List.mem_dedup, List.mem_append]
  exact h

/-- A batch with a token in one of its lists is not empty. -/
theorem not_is_empty_of_ne (v1 v2 : List Addr) (h : v1 ≠ [] ∨ v2 ≠ []) :
    ¬ (MissingTokenResults.mk v1 v2).is_empty := by
  rcases h with h | h <;>
    simp_all [MissingTokenResults.is_empty, List.isEmpty_iff]

/-- Closed form of a non-empty run on a supported network: the run completes
(no abort), the resolver is invoked once per work-list token, the skip list
holds exactly the failing work-list tokens, and each output file holds one
line per source-list token that resolved, in source order. -/
theorem runBatch_ok (resolve : Addr → Option TokenDetails) (chain : Network)
    (hchain : chain.supported) (v1 v2 : List Addr)
    (hne : ¬ (MissingTokenResults.mk v1 v2).is_empty) :
    runBatch resolve chain ⟨v1, v2⟩ =
      Except.ok
        { resolverCalls := (MissingTokenResults.mk v1 v2).workList.length
          skipped := (MissingTokenResults.mk v1 v2).workList.filter
            (fun u => (resolve u).isNone)
          filesWritten := [("missing-tokens-v1.txt",
              v1.filterMap fun t => (resolve t).bind fun d =>
                (d.as_v1_string chain).toOption),
            ("missing-tokens-v2.txt",
              v2.filterMap fun t => (resolve t).map TokenDetails.as_v2_string)]
          noMissingTokens := false } := by
  have hv1 : ∀ t ∈ v1, t ∈ (MissingTokenResults.mk v1 v2).workList :=
    fun t ht => mem_workList_of_mem v1 v2 t (Or.inl ht)
  have hv2 : ∀ t ∈ v2, t ∈ (MissingTokenResults.mk v1 v2).workList :=
    fun t ht => mem_workList_of_mem v1 v2 t (Or.inr ht)
  unfold runBatch
  rw [if_pos hne, resolutionLoop_eq]
  simp only
  rw [resV1_ok resolve chain hchain _ v1 hv1,
    resV2_ok resolve _ v2 hv2]

/-- A concrete resolved record used in concrete evaluations: the example of
the source comment at line 45. -/
def blueToken : TokenDetails :=
  { address := "0x96B00208911d72eA9f10c3303fF319427A7884C9", symbol := "BLUE",
    decimals := 18 }

/-- Counterexample to claim C5: on mainnet the rendered line does not begin
with a single backslash before `x`. The f-string `f"\\\\x{address[2:]}"`
produces two backslash characters (the escaped bytea form, as the source's
own example comment shows), so the line the claim prescribes differs from the
line the code emits. -/
theorem as_v1_mainnet_backslash_counterexample :
    blueToken.as_v1_string Network.MAINNET =
      Except.ok "\\\\x96B00208911d72eA9f10c3303fF319427A7884C9\tBLUE\t18" ∧
    ("\\\\x96B00208911d72eA9f10c3303fF319427A7884C9\tBLUE\t18" : String) ≠
      "\\x96B00208911d72eA9f10c3303fF319427A7884C9\tBLUE\t18" :=
  ⟨rfl, by decide⟩

/-- Claim C5 (amended): for every resolved token record, `as_v1_string` on
mainnet returns exactly two backslashes, `x`, the hex address without its
`0x` prefix, a tab, the symbol, a tab, and the decimals; on the alternate
(gnosis) network it returns exactly
`('<symbol>', <decimals>, decode('<hex-address-without-0x-prefix>', 'hex')),`. -/
theorem as_v1_string_exact_format (d : TokenDetails) :
    d.as_v1_string Network.MAINNET =
      Except.ok ("\\\\x" ++ d.address.drop 2 ++ "\t" ++ d.symbol ++ "\t" ++
        toString d.decimals) ∧
    d.as_v1_string Network.GNOSIS =
      Except.ok ("('" ++ d.symbol ++ "', " ++ toString d.decimals ++
        ", decode('" ++ d.address.drop 2 ++ "', 'hex')),") :=
  ⟨rfl, rfl⟩

/-- The spec's formatter round-trip record (its address literal, kept
verbatim from the claim). -/
def ycrvToken : TokenDetails :=
  { address := "0xFCc5c47bE19d06bF83eB04298b026F81069FF65", symbol := "yCRV",
    decimals := 18 }

/-- Claim C6: for every resolved token record, `as_v2_string` returns exactly
`('<lowercased-0x-address>', '<symbol>', <decimals>),` independent of any
network, and on the spec's round-trip record it returns exactly
`('0xfcc5c47be19d06bf83eb04298b026f81069ff65', 'yCRV', 18),`. -/
theorem as_v2_string_exact_format :
    (∀ d : TokenDetails, d.as_v2_string =
      "('" ++ pyLower d.address ++ "', '" ++ d.symbol ++ "', " ++
        toString d.decimals ++ "),") ∧
    ycrvToken.as_v2_string =
      "('0xfcc5c47be19d06bf83eb04298b026f81069ff65', 'yCRV', 18)," := by
  refine ⟨fun d => rfl, ?_⟩
  decide

/-- Claim C7: `as_v1_string` is a pure function of its record and network, it
returns a line exactly on the supported networks, and on a network outside
the supported set it raises (the spec's `UnsupportedNetworkError`, the
source's `ValueError`) and produces no output line. -/
theorem as_v1_string_fails_iff_unsupported (d : TokenDetails)
    (chain : Network) :
    ((∃ s, d.as_v1_string chain = Except.ok s) ↔ chain.supported) ∧
    (¬ chain.supported →
      d.as_v1_string chain =
        Except.error ("Incompatible Network " ++ chain.networkName)) := by
  cases chain with
  | MAINNET =>
    exact ⟨⟨fun _ => Or.inl rfl, fun _ => ⟨_, rfl⟩⟩,
      fun h => absurd (Or.inl rfl) h⟩
  | GNOSIS =>
    exact ⟨⟨fun _ => Or.inr rfl, fun _ => ⟨_, rfl⟩⟩,
      fun h => absurd (Or.inr rfl) h⟩
  | UNSUPPORTED s =>
    refine ⟨⟨?_, ?_⟩, fun _ => rfl⟩
    · rintro ⟨t, ht⟩
      exact absurd ht (by simp [TokenDetails.as_v1_string])
    · rintro (h | h) <;> cases h

/-- Claim C8: resolving the native-asset sentinel address returns the fixed
record (symbol `ETH`, decimals 18) with zero contract calls, whatever the
contract-read oracles would answer: no external metadata read occurs. -/
theorem native_token_no_contract_call
    (symbolOf : String → Option String) (decimalsOf : String → Option Nat) :
    TokenDetails.init symbolOf decimalsOf NATIVE_TOKEN =
      (some { address := toChecksumAddress NATIVE_TOKEN, symbol := "ETH",
              decimals := 18 }, 0) := rfl

/-- A V1 source stub for the C3 counterexample: it has a missing token. -/
def fetchLegacyCex : Network → List Addr := fun _ => ["0xaaaa"]

/-- A V2 source stub for the C3 counterexample: it has none. -/
def fetchV2Cex : Network → List Addr := fun _ => []

/-- A resolver stub for the C3 counterexample: it succeeds everywhere. -/
def resolveCex : Addr → Option TokenDetails := fun t =>
  some { address := t, symbol := "TKN", decimals := 6 }

/-- Counterexample to claim C3: a run in which the V1 source holds a missing
token and the V2 source none. Were the V1 list obtained by querying the V1
source and fed into the work set, the run would resolve that token and write
files; instead it reports `no missing tokens`, performs zero resolver calls
and writes nothing, because `run_missing_tokens` builds the batch with
`v1=[]` (line 121) and never invokes `fetch_missing_tokens_legacy`. -/
theorem v1_source_not_queried :
    fetchLegacyCex Network.MAINNET = ["0xaaaa"] ∧
    run_missing_tokens fetchLegacyCex fetchV2Cex resolveCex Network.MAINNET =
      Except.ok { resolverCalls := 0, skipped := [], filesWritten := [],
                  noMissingTokens := true } :=
  ⟨rfl, rfl⟩

/-- Claim C3 (amended): on every run only the V2 source is queried. The batch
is built with `v1` hardcoded to the empty list and `v2` taken from the V2
source, so the deduplicated work set is fed by the V2 list alone, and the run
is entirely independent of the legacy V1 source (which is never invoked). -/
theorem run_missing_tokens_only_v2_source
    (fetchLegacy fetchLegacy' fetchV2 : Network → List Addr)
    (resolve : Addr → Option TokenDetails) (chain : Network) :
    run_missing_tokens fetchLegacy fetchV2 resolve chain =
      runBatch resolve chain { v1 := [], v2 := fetchV2 chain } ∧
    run_missing_tokens fetchLegacy fetchV2 resolve chain =
      run_missing_tokens fetchLegacy' fetchV2 resolve chain ∧
    (MissingTokenResults.mk [] (fetchV2 chain)).get_all_tokens =
      (fetchV2 chain).toFinset := by
  refine ⟨rfl, rfl, ?_⟩
  simp [MissingTokenResults.get_all_tokens]

/-- Counterexample to claim C4: `v1 = ["0xa", "0xa"]` and `v2 = []` are
disjoint lists, yet the work set has cardinality 1, not `|v1| + |v2| = 2`;
and for the identical pair `v1 = v2 = ["0xa", "0xa"]` the work-set size is
1, not `|v1| = 2`. Equality requires the lists to be duplicate-free, not
merely disjoint. -/
theorem work_set_card_counterexample :
    (["0xa", "0xa"] : List Addr).Disjoint ([] : List Addr) ∧
    (MissingTokenResults.mk ["0xa", "0xa"] []).get_all_tokens.card = 1 ∧
    ¬ (MissingTokenResults.mk ["0xa", "0xa"] []).get_all_tokens.card =
      (["0xa", "0xa"] : List Addr).length + ([] : List Addr).length ∧
    ¬ (MissingTokenResults.mk ["0xa", "0xa"]
        ["0xa", "0xa"]).get_all_tokens.card =
      (["0xa", "0xa"] : List Addr).length := by
  refine ⟨by simp [List.Disjoint], by decide, by decide, by decide⟩

/-- Claim C4 (amended): the work set has cardinality at most `|v1| + |v2|`,
with equality exactly when v1 and v2 are disjoint and each duplicate-free
(so equality still implies disjointness); for identical lists the work-set
size equals the number of distinct addresses of v1, which is `|v1|` when v1
is duplicate-free. -/
theorem work_set_card_bound (v1 v2 : List Addr) :
    (MissingTokenResults.mk v1 v2).get_all_tokens.card ≤
      v1.length + v2.length ∧
    ((MissingTokenResults.mk v1 v2).get_all_tokens.card =
        v1.length + v2.length ↔
      v1.Nodup ∧ v2.Nodup ∧ v1.Disjoint v2) ∧
    (MissingTokenResults.mk v1 v1).get_all_tokens.card = v1.dedup.length ∧
    (v1.Nodup → (MissingTokenResults.mk v1 v1).get_all_tokens.card =
      v1.length) := by
  have hcard : (MissingTokenResults.mk v1 v2).get_all_tokens.card =
      (v1 ++ v2).dedup.length := by
    show (v1 ++ v2).toFinset.card = (v1 ++ v2).dedup.length
    rw [List.card_toFinset]
  have hone : (MissingTokenResults.mk v1 v1).get_all_tokens.card =
      v1.dedup.length := by
    have huni : (MissingTokenResults.mk v1 v1).get_all_tokens =
        v1.toFinset := by
      simp [MissingTokenResults.get_all_tokens]
    rw [huni, List.card_toFinset]
  have hsub : (v1 ++ v2).dedup.Sublist (v1 ++ v2) := List.dedup_sublist _
  refine ⟨?_, ⟨?_, ?_⟩, hone, ?_⟩
  · rw [hcard]
    simpa using hsub.length_le
  · intro h
    rw [hcard] at h
    have hdl : (v1 ++ v2).dedup = v1 ++ v2 :=
      hsub.eq_of_length (by simpa using h)
    have hnd : (v1 ++ v2).Nodup := by
      rw [← hdl]; exact List.nodup_dedup _
    simpa [List.nodup_append] using hnd
  · rintro ⟨h1, h2, h3⟩
    have hnd : (v1 ++ v2).Nodup := List.nodup_append.2 ⟨h1, h2, h3⟩
    rw [hcard, List.dedup_eq_self.2 hnd]
    simp
  · intro h
    rw [hone, List.dedup_eq_self.2 h]

/-- Claim C1: for every batch and every resolver behaviour, the run completes
without aborting; every address of either list whose resolution raised is
recorded in the skip set (and the skip set holds only such failures), and the
two emitted output sequences list, in each source list's original order,
exactly the addresses whose resolution succeeded, each rendered from its
resolved record — failed addresses are absent from both. -/
theorem run_tolerates_partial_failures (resolve : Addr → Option TokenDetails)
    (chain : Network) (v1 v2 : List Addr) (hchain : chain.supported) :
    ∃ r : RunResult,
      runBatch resolve chain ⟨v1, v2⟩ = Except.ok r ∧
      (∀ t, (t ∈ v1 ∨ t ∈ v2) → resolve t = none → t ∈ r.skipped) ∧
      (∀ t, t ∈ r.skipped → resolve t = none) ∧
      (MissingTokenResults.is_empty ⟨v1, v2⟩ = false →
        r.filesWritten =
          [("missing-tokens-v1.txt", v1.filterMap fun t =>
              (resolve t).bind fun d => (d.as_v1_string chain).toOption),
           ("missing-tokens-v2.txt", v2.filterMap fun t =>
              (resolve t).map TokenDetails.as_v2_string)]) := by
  by_cases hne : (MissingTokenResults.mk v1 v2).is_empty = true
  · obtain ⟨h1, h2⟩ : v1 = [] ∧ v2 = [] := by
      simpa [MissingTokenResults.is_empty, List.isEmpty_iff] using hne
    subst h1; subst h2
    refine ⟨_, rfl, ?_, ?_, ?_⟩
    · rintro t (ht | ht) <;> simp at ht
    · intro t ht
      simp at ht
    · intro hfalse
      rw [hne] at hfalse
      cases hfalse
  · refine ⟨_, runBatch_ok resolve chain hchain v1 v2 hne, ?_, ?_, ?_⟩
    · intro t ht hnone
      exact (mem_skipped resolve (MissingTokenResults.mk v1 v2).workList
        t).2 ⟨mem_workList_of_mem v1 v2 t ht, hnone⟩
    · intro t ht
      exact ((mem_skipped resolve (MissingTokenResults.mk v1 v2).workList
        t).1 ht).2
    · intro _
      rfl

/-- A concrete resolver for witnesses: it raises exactly on the address
`0xbad` and resolves every other address. -/
def resolveW : Addr → Option TokenDetails := fun t =>
  if t = "0xbad" then none
  else some { address := t, symbol := "TKN", decimals := 18 }

/-- Witness for claim C1's theorem: the hypotheses hold at mainnet with a
failing address shared by both lists. -/
theorem run_tolerates_partial_failures_witness :
    ∃ r : RunResult,
      runBatch resolveW Network.MAINNET
          ⟨["0xaaa1", "0xbad"], ["0xbad", "0xaaa2"]⟩ = Except.ok r ∧
      (∀ t, (t ∈ ["0xaaa1", "0xbad"] ∨ t ∈ ["0xbad", "0xaaa2"]) →
        resolveW t = none → t ∈ r.skipped) ∧
      (∀ t, t ∈ r.skipped → resolveW t = none) ∧
      (MissingTokenResults.is_empty
          ⟨["0xaaa1", "0xbad"], ["0xbad", "0xaaa2"]⟩ = false →
        r.filesWritten =
          [("missing-tokens-v1.txt", ["0xaaa1", "0xbad"].filterMap fun t =>
              (resolveW t).bind fun d =>
                (d.as_v1_string Network.MAINNET).toOption),
           ("missing-tokens-v2.txt", ["0xbad", "0xaaa2"].filterMap fun t =>
              (resolveW t).map TokenDetails.as_v2_string)]) :=
  run_tolerates_partial_failures resolveW Network.MAINNET
    ["0xaaa1", "0xbad"] ["0xbad", "0xaaa2"] (Or.inl rfl)

/-- Claim C2: the number of resolver invocations a run makes equals the
cardinality of the deduplicated work set `get_all_tokens` — one invocation
per distinct address, however often an address repeats within or across the
two source lists. -/
theorem resolver_called_once_per_distinct_address
    (resolve : Addr → Option TokenDetails) (v1 v2 : List Addr) :
    (resolutionLoop resolve (MissingTokenResults.mk v1 v2).workList).2.2 =
      (MissingTokenResults.mk v1 v2).get_all_tokens.card ∧
    (∀ chain r, runBatch resolve chain ⟨v1, v2⟩ = Except.ok r →
      r.resolverCalls =
        (MissingTokenResults.mk v1 v2).get_all_tokens.card) := by
  have hcard : (MissingTokenResults.mk v1 v2).get_all_tokens.card =
      (MissingTokenResults.mk v1 v2).workList.length := by
    show (v1 ++ v2).toFinset.card = (v1 ++ v2).dedup.length
    rw [List.card_toFinset]
  constructor
  · rw [resolutionLoop_eq, hcard]
  · intro chain r h
    by_cases hne : (MissingTokenResults.mk v1 v2).is_empty = true
    · obtain ⟨h1, h2⟩ : v1 = [] ∧ v2 = [] := by
        simpa [MissingTokenResults.is_empty, List.isEmpty_iff] using hne
      subst h1; subst h2
      have hrun : runBatch resolve chain ⟨[], []⟩ =
          Except.ok { resolverCalls := 0, skipped := [], filesWritten := [],
                      noMissingTokens := true } := rfl
      rw [hrun] at h
      obtain rfl := Except.ok.inj h
      simp [MissingTokenResults.get_all_tokens]
    · unfold runBatch at h
      rw [if_pos hne, resolutionLoop_eq] at h
      dsimp only at h
      split at h
      · cases h
      · split at h
        · cases h
        · obtain rfl := Except.ok.inj h
          rw [hcard]

/-- Claim C9: on an empty batch the run terminates successfully with zero
files written, zero resolver calls and the `no missing tokens` result; on a
non-empty batch it proceeds to resolution and writes both output files. -/
theorem run_empty_short_circuit (resolve : Addr → Option TokenDetails)
    (chain : Network) (v1 v2 : List Addr) (hchain : chain.supported) :
    runBatch resolve chain ⟨[], []⟩ =
      Except.ok { resolverCalls := 0, skipped := [], filesWritten := [],
                  noMissingTokens := true } ∧
    ((MissingTokenResults.mk v1 v2).is_empty = false →
      ∃ r, runBatch resolve chain ⟨v1, v2⟩ = Except.ok r ∧
        r.noMissingTokens = false ∧
        r.filesWritten.map Prod.fst =
          ["missing-tokens-v1.txt", "missing-tokens-v2.txt"]) := by
  refine ⟨rfl, ?_⟩
  intro hne
  refine ⟨_, runBatch_ok resolve chain hchain v1 v2 (by simp [hne]), rfl, rfl⟩

/-- Witness for claim C9's theorem: both branches at mainnet, with a
singleton V2 list for the non-empty branch. -/
theorem run_empty_short_circuit_witness :
    runBatch resolveW Network.MAINNET ⟨[], []⟩ =
      Except.ok { resolverCalls := 0, skipped := [], filesWritten := [],
                  noMissingTokens := true } ∧
    ((MissingTokenResults.mk [] ["0xaaa1"]).is_empty = false →
      ∃ r, runBatch resolveW Network.MAINNET ⟨[], ["0xaaa1"]⟩ =
          Except.ok r ∧
        r.noMissingTokens = false ∧
        r.filesWritten.map Prod.fst =
          ["missing-tokens-v1.txt", "missing-tokens-v2.txt"]) :=
  run_empty_short_circuit resolveW Network.MAINNET [] ["0xaaa1"]
    (Or.inl rfl)

/-- Claim C10: after the resolution loop, each work-set address lies in
exactly one of the `token_details` mapping and the `skipped` list (the
mapping is defined exactly off the skip list), and for every address of
either source list that is not skipped, the projection's `token_details[t]`
lookup is defined — it returns the resolved record and never raises. -/
theorem resolved_and_skipped_partition (resolve : Addr → Option TokenDetails)
    (v1 v2 : List Addr) (td : List (Addr × TokenDetails)) (sk : List Addr)
    (n : Nat) (t : Addr)
    (hout : resolutionLoop resolve (MissingTokenResults.mk v1 v2).workList =
      (td, sk, n))
    (hmem : t ∈ v1 ++ v2) :
    ((td.lookup t).isSome ↔ t ∉ sk) ∧
    (t ∉ sk → ∃ d, dictLookup td t = Except.ok d ∧ resolve t = some d) := by
  have hw : t ∈ (MissingTokenResults.mk v1 v2).workList :=
    mem_workList_of_mem v1 v2 t (List.mem_append.1 hmem)
  rw [resolutionLoop_eq] at hout
  injection hout with h1 h2
  injection h2 with h2 h3
  subst h1; subst h2
  constructor
  · rw [lookup_resolved resolve _ t, if_pos hw]
    simp [mem_skipped, hw, Option.isSome_iff_ne_none]
  · intro hns
    have hnn : resolve t ≠ none := by
      intro hn
      exact hns ((mem_skipped resolve _ t).2 ⟨hw, hn⟩)
    obtain ⟨d, hd⟩ := Option.ne_none_iff_exists'.1 hnn
    refine ⟨d, ?_, hd⟩
    simp [dictLookup, lookup_resolved, hw, hd]

/-- The `token_details` mapping the loop builds in the witness run. -/
def tdW : List (Addr × TokenDetails) :=
  [("0xaaa1", { address := "0xaaa1", symbol := "TKN", decimals := 18 }),
   ("0xaaa2", { address := "0xaaa2", symbol := "TKN", decimals := 18 })]

/-- Witness for claim C10's theorem: the loop outcome of the witness run,
checked at the resolved address `0xaaa1`. -/
theorem resolved_and_skipped_partition_witness :
    ((tdW.lookup "0xaaa1").isSome ↔ "0xaaa1" ∉ (["0xbad"] : List Addr)) ∧
    ("0xaaa1" ∉ (["0xbad"] : List Addr) →
      ∃ d, dictLookup tdW "0xaaa1" = Except.ok d ∧
        resolveW "0xaaa1" = some d) :=
  resolved_and_skipped_partition resolveW ["0xaaa1", "0xbad"]
    ["0xbad", "0xaaa2"] tdW ["0xbad"] 3 "0xaaa1" (by decide) (by decide)
